import Mathlib

/-!
Verification of the analytics / authentication core of the FAST-API
Data-Endpoints service (a multi-tenant workplace-safety backend).

The Python source is shallowly embedded:
* machine text used in lookups and dynamic dictionary keys is modelled as
  `Str := List Nat` (Unicode codepoints); Python `str.lower()` becomes
  `pyLower` (ASCII case folding, which is what the stored data exercises);
* `datetime` values are Int microseconds since 0001-01-01 00:00:00
  (proleptic Gregorian, the calendar Python `datetime`/`calendar` use);
  `timedelta(minutes=o)` is `o * usPerMin`;
* bcrypt hashing is abstracted as an injective constructor (`PHash.bcrypt`)
  with exact verification, matching `passlib` verify-on-hash semantics;
* SQLAlchemy queries become pure functions over lists of rows; a commit is
  explicit state passing of those lists;
* exact rational arithmetic stands in for Python floats in the one place a
  float is produced (the resolution-rate KPI).
-/

/-! ## Calendar arithmetic (Python `calendar` / `datetime` modules)

`calendar.monthrange(year, month)[1]` and the civil-calendar arithmetic that
underlies `datetime`, `timedelta` and Postgres `date_trunc('day', ...)`.
-/

/-- `calendar.isleap(y)`: Gregorian leap-year rule. -/
def isleap (y : Nat) : Bool :=
  (y % 4 == 0 && y % 100 != 0) || (y % 400 == 0)

/-- Number of days in month `m` (1-12) of year `y`; this is the second
component of Python `calendar.monthrange(y, m)`. -/
def monthLen (y m : Nat) : Nat :=
  if m = 2 then (if isleap y then 29 else 28)
  else if m = 4 ∨ m = 6 ∨ m = 9 ∨ m = 11 then 30
  else 31

/-- Days contained in months `1..m` of year `y` (so `cumDays y 0 = 0`). -/
def cumDays (y : Nat) : Nat → Nat
  | 0 => 0
  | m + 1 => cumDays y m + monthLen y (m + 1)

/-- Number of days in year `y`. -/
def yearDays (y : Nat) : Nat := if isleap y then 366 else 365

/-- Days strictly before January 1 of year `y`, counted from 0001-01-01
(day number 0). -/
def daysBeforeYear (y : Nat) : Nat :=
  365 * (y - 1) + ((y - 1) / 4 + (y - 1) / 400 - (y - 1) / 100)

/-- Absolute day number of the civil date `y-m-d` (0001-01-01 is day 0).
This is `datetime.date(y, m, d).toordinal() - 1`. -/
def dateToDay (y m d : Nat) : Nat :=
  daysBeforeYear y + cumDays y (m - 1) + (d - 1)

/-- Largest `j` with `1 ≤ j ≤ k` and `f j ≤ r` (`0` when there is none),
found by downward scan; used to invert the cumulative day counts. -/
def scanUpper (f : Nat → Nat) : Nat → Nat → Nat
  | 0, _ => 0
  | k + 1, r => if f (k + 1) ≤ r then k + 1 else scanUpper f k r

/-- Civil date `(y, m, d)` of absolute day number `n`; the inverse of
`dateToDay`, mirroring what `datetime.date.fromordinal` computes (Python
formats day labels with `strftime` from exactly this data). -/
def dayToDate (n : Nat) : Nat × Nat × Nat :=
  let e := n / 146097
  let r := n % 146097
  let y' := scanUpper daysBeforeYear 400 r
  let y := 400 * e + y'
  let doy := r - daysBeforeYear y'
  let m := scanUpper (fun j => cumDays y (j - 1)) 12 doy
  let d := doy - cumDays y (m - 1) + 1
  (y, m, d)

theorem cumDays_twelve (y : Nat) : cumDays y 12 = yearDays y := by
  cases h : isleap y <;>
    simp [cumDays, monthLen, yearDays, h]

theorem cumDays_mono (y : Nat) {a b : Nat} (h : a ≤ b) :
    cumDays y a ≤ cumDays y b := by
  induction b with
  | zero =>
    have ha : a = 0 := by omega
    subst ha; exact le_rfl
  | succ k ih =>
    rcases Nat.lt_or_ge a (k + 1) with hlt | hge
    · have h1 := ih (by omega)
      have h2 : cumDays y (k + 1) = cumDays y k + monthLen y (k + 1) := rfl
      omega
    · have hak : a = k + 1 := by omega
      subst hak; exact le_rfl

theorem monthLen_pos (y m : Nat) : 0 < monthLen y m := by
  unfold monthLen
  split
  · split <;> omega
  · split <;> omega

theorem isleap_iff (y : Nat) :
    isleap y = true ↔ ((y % 4 = 0 ∧ ¬ y % 100 = 0) ∨ y % 400 = 0) := by
  unfold isleap
  simp

theorem daysBeforeYear_succ (y : Nat) (hy : 1 ≤ y) :
    daysBeforeYear (y + 1) = daysBeforeYear y + yearDays y := by
  have hiff := isleap_iff y
  unfold daysBeforeYear yearDays
  have hs : y + 1 - 1 = (y - 1) + 1 := by omega
  rw [hs]
  cases h : isleap y with
  | false =>
    rw [h] at hiff
    simp only [Bool.false_eq_true, false_iff] at hiff
    push_neg at hiff
    simp only [h, Bool.false_eq_true, if_false]
    omega
  | true =>
    rw [h] at hiff
    simp only [true_iff] at hiff
    simp only [h, if_true]
    rcases hiff with ⟨h4, h100⟩ | h400 <;> omega

theorem daysBeforeYear_mono {a b : Nat} (h : a ≤ b) :
    daysBeforeYear a ≤ daysBeforeYear b := by
  unfold daysBeforeYear; omega

theorem yearDays_pos (y : Nat) : 0 < yearDays y := by
  unfold yearDays; split <;> omega

theorem daysBeforeYear_strict_mono {a b : Nat} (ha : 1 ≤ a) (h : a < b) :
    daysBeforeYear a < daysBeforeYear b := by
  have h1 : daysBeforeYear a < daysBeforeYear (a + 1) := by
    rw [daysBeforeYear_succ a ha]
    have := yearDays_pos a
    omega
  exact lt_of_lt_of_le h1 (daysBeforeYear_mono (by omega))

theorem scanUpper_spec (f : Nat → Nat)
    (hmono : ∀ a b : Nat, a ≤ b → f a ≤ f b) :
    ∀ (k r j : Nat), 1 ≤ j → j ≤ k → f j ≤ r → r < f (j + 1) →
      scanUpper f k r = j := by
  intro k
  induction k with
  | zero => intro r j h1 h2 h3 h4; omega
  | succ k ih =>
    intro r j h1 h2 h3 h4
    unfold scanUpper
    by_cases hk : f (k + 1) ≤ r
    · rw [if_pos hk]
      by_contra hne
      have hlt : j < k + 1 := by omega
      have hle : f (j + 1) ≤ f (k + 1) := hmono _ _ (by omega)
      omega
    · rw [if_neg hk]
      have hne : j ≠ k + 1 := by
        intro heq; subst heq; exact hk h3
      exact ih r j h1 (by omega) h3 h4

theorem isleap_400 (e k : Nat) : isleap (400 * e + k) = isleap k := by
  have hm4 : (400 * e + k) % 4 = k % 4 := by omega
  have hm100 : (400 * e + k) % 100 = k % 100 := by omega
  have hm400 : (400 * e + k) % 400 = k % 400 := by omega
  unfold isleap
  rw [hm4, hm100, hm400]

theorem yearDays_400 (e k : Nat) : yearDays (400 * e + k) = yearDays k := by
  unfold yearDays
  rw [isleap_400]

theorem daysBeforeYear_era (e k : Nat) (hk : 1 ≤ k) :
    daysBeforeYear (400 * e + k) = 146097 * e + daysBeforeYear k := by
  unfold daysBeforeYear
  omega

theorem cumDays_succ (y m : Nat) (hm : 1 ≤ m) :
    cumDays y m = cumDays y (m - 1) + monthLen y m := by
  obtain ⟨m', rfl⟩ : ∃ m', m = m' + 1 := ⟨m - 1, by omega⟩
  simp [cumDays]

theorem dayToDate_dateToDay (y m d : Nat) (hy : 1 ≤ y) (hm1 : 1 ≤ m)
    (hm2 : m ≤ 12) (hd1 : 1 ≤ d) (hd2 : d ≤ monthLen y m) :
    dayToDate (dateToDay y m d) = (y, m, d) := by
  have hye : y = 400 * ((y - 1) / 400) + ((y - 1) % 400 + 1) := by omega
  have hy'1 : 1 ≤ (y - 1) % 400 + 1 := by omega
  have hy'400 : (y - 1) % 400 + 1 ≤ 400 := by omega
  have hms : cumDays y m = cumDays y (m - 1) + monthLen y m := cumDays_succ y m hm1
  have h12 : cumDays y m ≤ cumDays y 12 := cumDays_mono y hm2
  have hyd12 : cumDays y 12 = yearDays y := cumDays_twelve y
  have hdoy : cumDays y (m - 1) + (d - 1) < yearDays y := by omega
  have hydy : yearDays y = yearDays ((y - 1) % 400 + 1) := by
    conv_lhs => rw [hye]
    exact yearDays_400 _ _
  have hBe : daysBeforeYear y =
      146097 * ((y - 1) / 400) + daysBeforeYear ((y - 1) % 400 + 1) := by
    conv_lhs => rw [hye]
    exact daysBeforeYear_era _ _ hy'1
  have hBsucc : daysBeforeYear ((y - 1) % 400 + 1 + 1) =
      daysBeforeYear ((y - 1) % 400 + 1) + yearDays ((y - 1) % 400 + 1) :=
    daysBeforeYear_succ _ hy'1
  have hB401 : daysBeforeYear 401 = 146097 := by norm_num [daysBeforeYear]
  have hBmono : daysBeforeYear ((y - 1) % 400 + 1 + 1) ≤ daysBeforeYear 401 :=
    daysBeforeYear_mono (by omega)
  have hr : daysBeforeYear ((y - 1) % 400 + 1) + (cumDays y (m - 1) + (d - 1))
      < 146097 := by omega
  have hn : dateToDay y m d = 146097 * ((y - 1) / 400) +
      (daysBeforeYear ((y - 1) % 400 + 1) + (cumDays y (m - 1) + (d - 1))) := by
    unfold dateToDay
    omega
  have hdiv : dateToDay y m d / 146097 = (y - 1) / 400 := by omega
  have hmod : dateToDay y m d % 146097 =
      daysBeforeYear ((y - 1) % 400 + 1) + (cumDays y (m - 1) + (d - 1)) := by
    omega
  have hscanY : scanUpper daysBeforeYear 400
      (daysBeforeYear ((y - 1) % 400 + 1) + (cumDays y (m - 1) + (d - 1)))
      = (y - 1) % 400 + 1 := by
    apply scanUpper_spec daysBeforeYear (fun a b h => daysBeforeYear_mono h)
      400 _ _ hy'1 hy'400 (by omega)
    omega
  simp only [dayToDate]
  rw [hdiv, hmod, hscanY, ← hye]
  have hscanM : scanUpper (fun j => cumDays y (j - 1)) 12
      (daysBeforeYear ((y - 1) % 400 + 1) + (cumDays y (m - 1) + (d - 1))
        - daysBeforeYear ((y - 1) % 400 + 1)) = m := by
    apply scanUpper_spec _ (fun a b h => cumDays_mono y (by omega)) 12 _ _ hm1 hm2
    · show cumDays y (m - 1) ≤ _
      omega
    · show _ < cumDays y (m + 1 - 1)
      simp only [Nat.add_sub_cancel]
      omega
  rw [hscanM]
  refine Prod.ext rfl (Prod.ext rfl ?_)
  show daysBeforeYear ((y - 1) % 400 + 1) + (cumDays y (m - 1) + (d - 1))
      - daysBeforeYear ((y - 1) % 400 + 1) - cumDays y (m - 1) + 1 = d
  omega

/-! ## Microsecond time model

A Python `datetime` is an Int count of microseconds since 0001-01-01
00:00:00 (negative values never arise for stored data but the type keeps
subtraction total, as `datetime - timedelta` is). -/

/-- Microseconds per day. -/
def usPerDay : Int := 86400000000

/-- Microseconds per minute; `timedelta(minutes=o)` is `o * usPerMin`. -/
def usPerMin : Int := 60000000

/-- The instant `datetime(y, m, d, hh, mi, ss, us)`. -/
def dtMicro (y m d hh mi ss us : Nat) : Int :=
  (dateToDay y m d : Int) * usPerDay +
    ((hh * 3600 + mi * 60 + ss : Nat) : Int) * 1000000 + (us : Nat)

/-- Postgres `date_trunc('day', t)`: floor `t` to midnight of its civil day
(floor division, as day numbers of stored rows are nonnegative). -/
def truncDay (t : Int) : Int := Int.fdiv t usPerDay * usPerDay

/-! ## Text model (Python `str`)

Strings that the service lowercases, compares or concatenates are modelled
as codepoint lists; `pyLower` is `str.lower()` restricted to its ASCII
action, which is total on the data this service stores. -/

/-- Modelled Python string: a list of Unicode codepoints. -/
abbrev Str := List Nat

/-- Build a modelled string from a Lean literal. -/
def str (s : String) : Str := s.data.map Char.toNat

/-- ASCII action of Python `str.lower()` on one codepoint. -/
def pyLowerChar (c : Nat) : Nat := if 65 ≤ c ∧ c ≤ 90 then c + 32 else c

/-- Python `s.lower()`. -/
def pyLower (s : Str) : Str := s.map pyLowerChar

/-- Does the string contain an ASCII uppercase letter? -/
def hasUpper (s : Str) : Bool := s.any (fun c => 65 ≤ c && c ≤ 90)

/-- `os.path.basename`: the part after the last `/` (codepoint 47). -/
def basename (s : Str) : Str :=
  s.foldl (fun acc c => if c = 47 then [] else acc ++ [c]) []

/-! ## Password hashing (`app/core/security.py`)

`passlib` bcrypt is abstracted as an injective constructor: `verify`
succeeds exactly on the hash produced from the same plaintext. -/

/-- A stored bcrypt digest. -/
inductive PHash where
  | bcrypt (plaintext : Str)
deriving DecidableEq, Repr

/-- `get_password_hash(password)` from `app/core/security.py`. -/
def get_password_hash (password : Str) : PHash := PHash.bcrypt password

/-- `verify_password(plain, hashed)` from `app/core/security.py`. -/
def verify_password (plain : Str) (hashed : PHash) : Bool :=
  hashed == get_password_hash plain

/-! ## Data model rows (`app/models/`) -/

/-- A row of the `users` table (`app/models/user.py`). -/
structure UserRow where
  id : Nat
  organization_id : Nat
  username : Str
  email : Str
  password_hash : PHash
  role : Str
  is_active : Bool
  is_2fa_enabled : Bool
  otp_hash : Option PHash
  otp_expires_at : Option Int
deriving DecidableEq, Repr

/-- A row of the `devices` table (`app/models/device.py`). -/
structure DeviceRow where
  id : Nat
  organization_id : Nat
  device_token_secret : Str
  last_heartbeat : Option Int
deriving DecidableEq, Repr

/-- A row of the `cameras` table (`app/models/camera.py`). -/
structure CameraRow where
  id : Nat
  organization_id : Nat
  device_id : Nat
deriving DecidableEq, Repr

/-- A row of the `violations` table (`app/models/violation.py`). -/
structure ViolationRow where
  id : Nat
  organization_id : Nat
  camera_id : Nat
  timestamp_utc : Int
  violation_type : Str
  severity : Str
  is_false_positive : Bool
  is_resolved : Bool
  snapshot_url : Str
  duration_seconds : ℚ
deriving DecidableEq, Repr

/-- `raise HTTPException(status_code, detail)`. -/
structure HTTPException where
  status_code : Nat
  detail : Str
deriving DecidableEq, Repr

/-- A decoded JWT payload: `payload.get("sub")` (parsed to the row id it
names) and `payload.get("type")`; `none` fields model absent claims. -/
structure TokenPayload where
  sub : Option Nat
  token_type : Option Str
deriving DecidableEq, Repr

/-- `create_access_token(subject, token_type)`: the payload the JWT carries
(`app/core/security.py`; signing and expiry are the carrier, not data). -/
def create_access_token (subject : Nat) (token_type : Str) : TokenPayload :=
  { sub := some subject, token_type := some token_type }

/-! ## Authentication guards (`app/core/dependencies.py`)

`jwt.decode` either raises `JWTError` (modelled as `none`) or returns the
signed payload; the guards then check the claims. The code path that feeds
a malformed UUID string to `UUID(...)` is outside the decoded-payload model
and not exercised by any claim. -/

/-- `get_current_active_user` (`app/core/dependencies.py`, lines 14-47). -/
def get_current_active_user (decoded : Option TokenPayload)
    (users : List UserRow) : Except HTTPException UserRow :=
  let credentials_exception : HTTPException :=
    ⟨401, str "Could not validate credentials"⟩
  match decoded with
  | none => .error credentials_exception
  | some payload =>
    if payload.sub = none ∨ payload.token_type ≠ some (str "user") then
      .error credentials_exception
    else
      match users.find? (fun u => u.id == payload.sub.getD 0) with
      | none => .error ⟨404, str "User not found or inactive"⟩
      | some user =>
        if user.is_active then .ok user
        else .error ⟨404, str "User not found or inactive"⟩

/-- `get_device_by_token` (`app/core/dependencies.py`, lines 54-91). -/
def get_device_by_token (decoded : Option TokenPayload)
    (devices : List DeviceRow) : Except HTTPException DeviceRow :=
  let credentials_exception : HTTPException :=
    ⟨401, str "Invalid device credentials"⟩
  match decoded with
  | none => .error credentials_exception
  | some payload =>
    if payload.sub = none ∨ payload.token_type ≠ some (str "device") then
      .error credentials_exception
    else
      match devices.find? (fun d => d.id == payload.sub.getD 0) with
      | none => .error ⟨404, str "Device not found"⟩
      | some device => .ok device

/-! ## Violation ingestion (`app/routers/events.py`, `log_violation`)

The evidence image is saved before the insert; the saved filename is the
`filename` argument (`violation_{uuid4()}.{ext}` in the source - an opaque
fresh name). The disk-write failure branch (500) is I/O outside the model.
`datetime.utcnow()` is the `now` argument; the fresh row id is `newId`. -/

/-- State mutated by `log_violation`: the device table (heartbeat) and the
violation table (insert). -/
structure EventsDb where
  devices : List DeviceRow
  cameras : List CameraRow
  violations : List ViolationRow
deriving DecidableEq, Repr

/-- `log_violation` (`app/routers/events.py`, lines 30-112). -/
def log_violation (device_token : Str) (camera_id : Nat)
    (violation_type : Str) (severity : Str)
    (filename : Str) (now : Int) (newId : Nat) (db : EventsDb) :
    Except HTTPException (EventsDb × ViolationRow) :=
  match db.devices.find? (fun d => d.device_token_secret == device_token) with
  | none => .error ⟨401, str "Invalid Device Token"⟩
  | some device =>
    match db.cameras.find? (fun c => c.id == camera_id) with
    | none => .error ⟨404, str "Camera not found"⟩
    | some camera =>
      if camera.organization_id ≠ device.organization_id then
        .error ⟨403, str "Camera does not belong to your Organization"⟩
      else
        let new_violation : ViolationRow :=
          { id := newId
            organization_id := device.organization_id
            camera_id := camera.id
            timestamp_utc := now
            violation_type := violation_type
            severity := severity
            is_false_positive := false
            is_resolved := false
            snapshot_url := filename
            duration_seconds := 0 }
        let devices' := db.devices.map (fun d =>
          if d.id = device.id then { d with last_heartbeat := some now } else d)
        .ok ({ db with devices := devices',
                       violations := db.violations ++ [new_violation] },
             new_violation)

/-! ## Authentication endpoints (`app/routers/auth.py`) -/

/-- Result of a successful `POST /auth/token`: either a minted user token
or the 2FA-challenge response `{is_2fa_required: true}`. -/
inductive LoginOutcome where
  | token (payload : TokenPayload)
  | twofaRequired
deriving DecidableEq, Repr

/-- Replace the user row carrying `uid` (how a mutated ORM row is written
back by `db.commit()`). -/
def updateUser (users : List UserRow) (uid : Nat) (u' : UserRow) :
    List UserRow :=
  users.map (fun x => if x.id = uid then u' else x)

/-- `login_for_access_token` (`app/routers/auth.py`, lines 44-101).
`otp` is the fresh `generate_otp_code()` draw and `now` is
`datetime.utcnow()`; the email dispatch is assumed to succeed (its failure
raises 500 after the OTP state is already committed). -/
def login_for_access_token (username password : Str) (users : List UserRow)
    (now : Int) (otp : Str) :
    Except HTTPException (List UserRow × LoginOutcome) :=
  let normalized_email := pyLower username
  match users.find? (fun u => u.email == normalized_email) with
  | none => .error ⟨401, str "Incorrect username or password"⟩
  | some user =>
    if ¬ user.is_active ∨ ¬ verify_password password user.password_hash then
      .error ⟨401, str "Incorrect username or password"⟩
    else if user.is_2fa_enabled then
      let user' := { user with
        otp_hash := some (get_password_hash otp)
        otp_expires_at := some (now + 5 * usPerMin) }
      .ok (updateUser users user.id user', .twofaRequired)
    else
      .ok (users, .token (create_access_token user.id (str "user")))

/-- `verify_2fa_code` (`app/routers/auth.py`, lines 106-142). -/
def verify_2fa_code (email otp_code : Str) (users : List UserRow)
    (now : Int) : Except HTTPException (List UserRow × TokenPayload) :=
  match users.find? (fun u => u.email == pyLower email) with
  | none => .error ⟨400, str "User not found"⟩
  | some user =>
    match user.otp_hash, user.otp_expires_at with
    | some stored_hash, some expires_at =>
      if now > expires_at then
        .error ⟨400, str "Code expired. Please login again."⟩
      else if ¬ verify_password otp_code stored_hash then
        .error ⟨400, str "Invalid verification code."⟩
      else
        let user' := { user with otp_hash := none, otp_expires_at := none }
        .ok (updateUser users user.id user',
             create_access_token user.id (str "user"))
    | _, _ => .error ⟨400, str "No 2FA request pending."⟩

/-- Request body of `POST /auth/register/organization`. -/
structure OrganizationRegister where
  organization_name : Str
  device_name : Str
  admin_username : Str
  admin_email : Str
  admin_password : Str
deriving DecidableEq, Repr

/-- `register_organization` (`app/routers/auth.py`, lines 167-212).
`newOrgId`, `adminId`, `deviceId` are the generated UUIDs and
`secure_token` the minted device JWT; the organizations table itself is
not consulted by any claim and is left abstract. -/
def register_organization (data : OrganizationRegister)
    (users : List UserRow) (devices : List DeviceRow)
    (newOrgId adminId deviceId : Nat) (secure_token : Str) :
    Except HTTPException (List UserRow × List DeviceRow × UserRow) :=
  if (users.find? (fun u => u.email == data.admin_email)).isSome then
    .error ⟨400, str "A user with this email already exists."⟩
  else
    let new_admin : UserRow :=
      { id := adminId
        organization_id := newOrgId
        username := data.admin_username
        email := data.admin_email
        password_hash := get_password_hash data.admin_password
        role := str "GlobalAdmin"
        is_active := true
        is_2fa_enabled := false
        otp_hash := none
        otp_expires_at := none }
    let new_device : DeviceRow :=
      { id := deviceId
        organization_id := newOrgId
        device_token_secret := secure_token
        last_heartbeat := none }
    .ok (users ++ [new_admin], devices ++ [new_device], new_admin)

/-- Request body of `POST /auth/users/create`. -/
structure UserCreate where
  username : Str
  email : Str
  password : Str
  role : Str
deriving DecidableEq, Repr

/-- `create_new_user` (`app/routers/auth.py`, lines 297-329). -/
def create_new_user (new_user_data : UserCreate) (current_user : UserRow)
    (users : List UserRow) (newId : Nat) :
    Except HTTPException (List UserRow × UserRow) :=
  if current_user.role ≠ str "GlobalAdmin" then
    .error ⟨403, str "Only Global Admins can create new user accounts."⟩
  else if (users.find? (fun u =>
      u.email == pyLower new_user_data.email)).isSome then
    .error ⟨400, str "A user with this email already exists."⟩
  else
    let new_user : UserRow :=
      { id := newId
        organization_id := current_user.organization_id
        username := new_user_data.username
        email := pyLower new_user_data.email
        password_hash := get_password_hash new_user_data.password
        role := new_user_data.role
        is_active := true
        is_2fa_enabled := false
        otp_hash := none
        otp_expires_at := none }
    .ok (users ++ [new_user], new_user)

/-! ## Media endpoint (`app/routers/media.py`) -/

/-- A `FileResponse(path)` body. -/
inductive MediaResponse where
  | fileResponse (path : Str)
deriving DecidableEq, Repr

/-- `get_violation_snapshot` (`app/routers/media.py`, lines 20-66).
`file_exists` is `Path.is_file()` on the media volume. -/
def get_violation_snapshot (violation_id : Nat) (current_user : UserRow)
    (violations : List ViolationRow) (file_exists : Str → Bool) :
    Except HTTPException MediaResponse :=
  match violations.find? (fun v => v.id == violation_id) with
  | none => .error ⟨404, str "Violation not found"⟩
  | some violation =>
    if violation.organization_id ≠ current_user.organization_id then
      .error ⟨403, str "You do not have permission to view this evidence."⟩
    else
      let file_path := str "media/" ++ basename violation.snapshot_url
      if ¬ file_exists file_path then
        .ok (.fileResponse (str "media/placeholder.jpg"))
      else
        .ok (.fileResponse file_path)

/-! ## Analytics aggregation (`app/routers/analytics.py`, `get_dashboard_stats`)

The SQL layer groups matching rows by (truncated local day, type, severity,
false-positive flag) and hands per-group counts to the Python fold. Since
the per-bucket updates are additive in the count, folding each matching
violation as its own row of count 1 computes the same buckets; the
embedding folds per violation. -/

/-- Python `round(x, 1)` uses round-half-to-even at the last kept digit
(modelled over exact rationals). -/
def roundHalfEven (x : ℚ) : Int :=
  let f := ⌊x⌋
  if x - f < 1 / 2 then f
  else if 1 / 2 < x - f then f + 1
  else if f % 2 = 0 then f else f + 1

/-- Python `round(x, 1)`. -/
def pyRound1 (x : ℚ) : ℚ := (roundHalfEven (10 * x) : ℚ) / 10

/-- Lines 55-63: the local month window shifted to UTC
(`utc = local - offset`); the end bound is the last day at 23:59:59. -/
def monthWindow (year month : Nat) (timezone_offset : Int) : Int × Int :=
  let last_day := monthLen year month
  let local_start := dtMicro year month 1 0 0 0 0
  let local_end := dtMicro year month last_day 23 59 59 0
  (local_start - timezone_offset * usPerMin,
   local_end - timezone_offset * usPerMin)

/-- Lines 65-68: `org_filter` and `date_filter` applied to a stored row. -/
def inWindow (orgId : Nat) (w : Int × Int) (v : ViolationRow) : Bool :=
  v.organization_id == orgId &&
    decide (w.1 ≤ v.timestamp_utc) && decide (v.timestamp_utc ≤ w.2)

/-- The KPI block of the response (lines 71-81 and 132-137). -/
structure DashboardStats where
  total : Nat
  resolved : Nat
  false_positives : Nat
  valid_total : Nat
  resolution_rate : ℚ
deriving DecidableEq, Repr

/-- Lines 71-81: the KPI query and derived numbers. -/
def dashboard_kpis (orgId : Nat) (year month : Nat) (timezone_offset : Int)
    (violations : List ViolationRow) : DashboardStats :=
  let w := monthWindow year month timezone_offset
  let matching := violations.filter (inWindow orgId w)
  let total := matching.length
  let resolved := (matching.filter (fun v => v.is_resolved)).length
  let false_pos := (matching.filter (fun v => v.is_false_positive)).length
  { total := total
    resolved := resolved
    false_positives := false_pos
    valid_total := total - false_pos
    resolution_rate :=
      if total > 0 then pyRound1 ((resolved : ℚ) / (total : ℚ) * 100)
      else 0 }

/-- One `daily_data` bucket: the two fixed totals plus the dynamically
keyed counters (`false_<severity>` / raw violation-type codes), which live
in one flat dictionary exactly as in the Python dict. -/
structure DayBucket where
  total_valid : Nat
  total_false : Nat
  counters : List (Str × Nat)
deriving DecidableEq, Repr

/-- `d.get(key, 0) + count` written back into the dict. -/
def bump (counters : List (Str × Nat)) (k : Str) (c : Nat) :
    List (Str × Nat) :=
  match counters with
  | [] => [(k, c)]
  | (k', v) :: t => if k' = k then (k', v + c) :: t else (k', v) :: bump t k c

/-- Dictionary read with default 0. -/
def getCount (counters : List (Str × Nat)) (k : Str) : Nat :=
  match counters with
  | [] => 0
  | (k', v) :: t => if k' = k then v else getCount t k

/-- Update the bucket stored under key `k`, leaving the dictionary
untouched when the key is absent (the `if day_label in daily_data` guard). -/
def updateAt (daily : List ((Nat × Nat) × DayBucket)) (k : Nat × Nat)
    (f : DayBucket → DayBucket) : List ((Nat × Nat) × DayBucket) :=
  match daily with
  | [] => []
  | (k', b) :: t =>
    if k' = k then (k', f b) :: t else (k', b) :: updateAt t k f

/-- Bucket lookup by day label. -/
def lookupBucket (daily : List ((Nat × Nat) × DayBucket)) (k : Nat × Nat) :
    Option DayBucket :=
  (daily.find? (fun e => e.1 == k)).map (fun e => e.2)

/-- One row of the trend query (lines 87-95): the day-truncated local
timestamp together with the grouped dimensions and its count. -/
structure TrendRow where
  day : Int
  violation_type : Str
  severity : Str
  is_false_positive : Bool
  count : Nat
deriving DecidableEq, Repr

/-- `row.day.strftime("%d %b")`: the (day-of-month, month) pair shown by
the label (the month abbreviation determines the month number and the
format omits the year). -/
def labelOfTrunc (t : Int) : Nat × Nat :=
  let ymd := dayToDate (Int.toNat (Int.fdiv t usPerDay))
  (ymd.2.2, ymd.2.1)

/-- The trend row a single matching violation contributes
(`date_trunc('day', timestamp_utc + timedelta(minutes=offset))`). -/
def trendRowOf (timezone_offset : Int) (v : ViolationRow) : TrendRow :=
  { day := truncDay (v.timestamp_utc + timezone_offset * usPerMin)
    violation_type := v.violation_type
    severity := v.severity
    is_false_positive := v.is_false_positive
    count := 1 }

/-- Lines 99-108: one zeroed bucket per calendar day of the month, keyed
by the `"%d %b"` label of `datetime(year, month, d)`. -/
def initDaily (year month : Nat) : List ((Nat × Nat) × DayBucket) :=
  (List.range (monthLen year month)).map
    (fun i => ((i + 1, month), ⟨0, 0, []⟩))

/-- Lines 116-122: the per-row bucket mutation. -/
def applyTrendRow (row : TrendRow) (b : DayBucket) : DayBucket :=
  if row.is_false_positive then
    { b with
      total_false := b.total_false + row.count
      counters := bump b.counters (str "false_" ++ pyLower row.severity)
        row.count }
  else
    { b with
      total_valid := b.total_valid + row.count
      counters := bump b.counters row.violation_type row.count }

/-- Lines 110-122: fold one trend row into `daily_data`. -/
def foldTrendRow (daily : List ((Nat × Nat) × DayBucket)) (row : TrendRow) :
    List ((Nat × Nat) × DayBucket) :=
  updateAt daily (labelOfTrunc row.day) (applyTrendRow row)

/-- The `trend_data` block of the response (lines 83-122 and 138). -/
def trend_data (orgId : Nat) (year month : Nat) (timezone_offset : Int)
    (violations : List ViolationRow) : List ((Nat × Nat) × DayBucket) :=
  let w := monthWindow year month timezone_offset
  let matching := violations.filter (inWindow orgId w)
  (matching.map (trendRowOf timezone_offset)).foldl foldTrendRow
    (initDaily year month)

/-! ## Claim theorems -/

/-- C3: a device-tagged token never authenticates a user-scoped endpoint
and a user-tagged token never authenticates a device-scoped endpoint: the
user guard demands the type claim "user" and the device guard demands
"device", each failing 401 otherwise, over any database contents. -/
theorem token_kind_separation (p q : TokenPayload)
    (users : List UserRow) (devices : List DeviceRow)
    (hp : p.token_type = some (str "device"))
    (hq : q.token_type = some (str "user")) :
    get_current_active_user (some p) users =
      .error ⟨401, str "Could not validate credentials"⟩ ∧
    get_device_by_token (some q) devices =
      .error ⟨401, str "Invalid device credentials"⟩ := by
  constructor
  · have hne : p.token_type ≠ some (str "user") := by
      rw [hp]
      intro hcontra
      exact absurd (Option.some.inj hcontra) (by decide)
    simp [get_current_active_user, hne]
  · have hne : q.token_type ≠ some (str "device") := by
      rw [hq]
      intro hcontra
      exact absurd (Option.some.inj hcontra) (by decide)
    simp [get_device_by_token, hne]

/-- Witness for C3 at concrete payloads. -/
theorem token_kind_separation_witness :
    get_current_active_user (some ⟨some 1, some (str "device")⟩) [] =
      .error ⟨401, str "Could not validate credentials"⟩ ∧
    get_device_by_token (some ⟨some 2, some (str "user")⟩) [] =
      .error ⟨401, str "Invalid device credentials"⟩ :=
  token_kind_separation ⟨some 1, some (str "device")⟩
    ⟨some 2, some (str "user")⟩ [] [] rfl rfl

/-- C9: every violation row the report operation creates is stamped with
the server clock (`datetime.utcnow()`) as its timestamp, has
`duration_seconds = 0`, starts with both flags false, is appended to the
violation table, and carries the authenticated device's organization id.
The request form carries no timestamp, duration or organization field, so
none of these can be client-supplied. -/
theorem log_violation_stamps (device_token : Str) (camera_id : Nat)
    (violation_type severity filename : Str) (now : Int) (newId : Nat)
    (db db' : EventsDb) (v : ViolationRow)
    (h : log_violation device_token camera_id violation_type severity
      filename now newId db = .ok (db', v)) :
    v.timestamp_utc = now ∧ v.duration_seconds = 0 ∧
    v.is_false_positive = false ∧ v.is_resolved = false ∧
    db'.violations = db.violations ++ [v] ∧
    ∃ device,
      db.devices.find? (fun d => d.device_token_secret == device_token) =
        some device ∧
      v.organization_id = device.organization_id := by
  unfold log_violation at h
  cases hdev : db.devices.find?
      (fun d => d.device_token_secret == device_token) with
  | none => rw [hdev] at h; exact absurd h (by simp)
  | some device =>
    rw [hdev] at h
    cases hcam : db.cameras.find? (fun c => c.id == camera_id) with
    | none => rw [hcam] at h; exact absurd h (by simp)
    | some camera =>
      rw [hcam] at h
      dsimp only at h
      by_cases horg : camera.organization_id = device.organization_id
      · rw [if_neg (by simp [horg])] at h
        simp only [Except.ok.injEq, Prod.mk.injEq] at h
        obtain ⟨hdb, hv⟩ := h
        subst hv
        refine ⟨rfl, rfl, rfl, rfl, ?_, device, rfl, rfl⟩
        rw [← hdb]
      · rw [if_pos horg] at h
        exact absurd h (by simp)

/-- Witness for C9: a concrete accepted report. -/
theorem log_violation_stamps_witness :
    (⟨10, 0, 7, 1234, str "no_helmet", str "High", false, false,
        str "f.jpg", 0⟩ : ViolationRow).timestamp_utc = 1234 ∧
    (0 : ℚ) = 0 ∧ false = false ∧ false = false ∧
    ([⟨10, 0, 7, 1234, str "no_helmet", str "High", false, false,
        str "f.jpg", 0⟩] : List ViolationRow) =
      [] ++ [⟨10, 0, 7, 1234, str "no_helmet", str "High", false, false,
        str "f.jpg", 0⟩] ∧
    ∃ device,
      ([⟨3, 0, str "tok", none⟩] : List DeviceRow).find?
          (fun d => d.device_token_secret == str "tok") = some device ∧
      (⟨10, 0, 7, 1234, str "no_helmet", str "High", false, false,
          str "f.jpg", 0⟩ : ViolationRow).organization_id =
        device.organization_id :=
  log_violation_stamps (str "tok") 7 (str "no_helmet") (str "High")
    (str "f.jpg") 1234 10
    ⟨[⟨3, 0, str "tok", none⟩], [⟨7, 0, 3⟩], []⟩
    ⟨[⟨3, 0, str "tok", some 1234⟩], [⟨7, 0, 3⟩],
      [⟨10, 0, 7, 1234, str "no_helmet", str "High", false, false,
        str "f.jpg", 0⟩]⟩
    ⟨10, 0, 7, 1234, str "no_helmet", str "High", false, false,
      str "f.jpg", 0⟩
    (by rfl)

/-- C8: the snapshot endpoint returns 404 when no violation carries the
requested id, 403 when the violation belongs to another organization than
the requesting user, and a placeholder image (an ok response, never a
server error) when the row is accessible but its evidence file is missing
on disk. -/
theorem snapshot_access_policy (violation_id : Nat) (current_user : UserRow)
    (violations : List ViolationRow) (file_exists : Str → Bool) :
    (violations.find? (fun v => v.id == violation_id) = none →
      get_violation_snapshot violation_id current_user violations
        file_exists = .error ⟨404, str "Violation not found"⟩) ∧
    (∀ v, violations.find? (fun x => x.id == violation_id) = some v →
      v.organization_id ≠ current_user.organization_id →
      get_violation_snapshot violation_id current_user violations
        file_exists =
        .error ⟨403, str "You do not have permission to view this evidence."⟩) ∧
    (∀ v, violations.find? (fun x => x.id == violation_id) = some v →
      v.organization_id = current_user.organization_id →
      file_exists (str "media/" ++ basename v.snapshot_url) = false →
      get_violation_snapshot violation_id current_user violations
        file_exists = .ok (.fileResponse (str "media/placeholder.jpg"))) := by
  refine ⟨?_, ?_, ?_⟩
  · intro hnone
    unfold get_violation_snapshot
    rw [hnone]
  · intro v hfind hmis
    unfold get_violation_snapshot
    rw [hfind]
    dsimp only
    rw [if_pos hmis]
  · intro v hfind horg hmiss
    unfold get_violation_snapshot
    rw [hfind]
    dsimp only
    rw [if_neg (by simp [horg]), if_pos (by simp [hmiss])]

/-- Witness for C8: a missing id, a cross-tenant row and a missing file. -/
theorem snapshot_access_policy_witness :
    get_violation_snapshot 99 ⟨1, 1, [], [], get_password_hash [], [],
        true, false, none, none⟩
      [⟨5, 2, 7, 0, [], [], false, false, str "a/b.jpg", 0⟩]
      (fun _ => false) = .error ⟨404, str "Violation not found"⟩ ∧
    get_violation_snapshot 5 ⟨1, 1, [], [], get_password_hash [], [],
        true, false, none, none⟩
      [⟨5, 2, 7, 0, [], [], false, false, str "a/b.jpg", 0⟩]
      (fun _ => false) =
      .error ⟨403, str "You do not have permission to view this evidence."⟩ ∧
    get_violation_snapshot 5 ⟨1, 2, [], [], get_password_hash [], [],
        true, false, none, none⟩
      [⟨5, 2, 7, 0, [], [], false, false, str "a/b.jpg", 0⟩]
      (fun _ => false) = .ok (.fileResponse (str "media/placeholder.jpg")) :=
  ⟨(snapshot_access_policy 99 ⟨1, 1, [], [], get_password_hash [], [],
        true, false, none, none⟩
      [⟨5, 2, 7, 0, [], [], false, false, str "a/b.jpg", 0⟩]
      (fun _ => false)).1 (by decide),
   (snapshot_access_policy 5 ⟨1, 1, [], [], get_password_hash [], [],
        true, false, none, none⟩
      [⟨5, 2, 7, 0, [], [], false, false, str "a/b.jpg", 0⟩]
      (fun _ => false)).2.1 ⟨5, 2, 7, 0, [], [], false, false,
        str "a/b.jpg", 0⟩ (by decide) (by decide),
   (snapshot_access_policy 5 ⟨1, 2, [], [], get_password_hash [], [],
        true, false, none, none⟩
      [⟨5, 2, 7, 0, [], [], false, false, str "a/b.jpg", 0⟩]
      (fun _ => false)).2.2 ⟨5, 2, 7, 0, [], [], false, false,
        str "a/b.jpg", 0⟩ (by decide) (by decide) (by decide)⟩

/-- C1 counterexample: a camera owned by a *different* device (id 2) of
the *same* organization is accepted from device 1 and a violation row is
inserted, contradicting the claim that such a report fails with no row
inserted; the code compares organization ids only (`events.py` line 67),
never `camera.device_id`. -/
theorem violation_report_device_mismatch_accepted :
    log_violation (str "devtok") 10 (str "no_helmet") (str "High")
      (str "img.jpg") 500 42 ⟨[⟨1, 1, str "devtok", none⟩], [⟨10, 1, 2⟩], []⟩
      = .ok (⟨[⟨1, 1, str "devtok", some 500⟩], [⟨10, 1, 2⟩],
          [⟨42, 1, 10, 500, str "no_helmet", str "High", false, false,
            str "img.jpg", 0⟩]⟩,
        ⟨42, 1, 10, 500, str "no_helmet", str "High", false, false,
          str "img.jpg", 0⟩) ∧
    (⟨10, 1, 2⟩ : CameraRow).device_id ≠ (⟨1, 1, str "devtok", none⟩ :
      DeviceRow).id :=
  ⟨rfl, by decide⟩

/-- C1 amended: the report operation checks organization membership, not
device ownership: with the device and camera both resolved, it fails 403
exactly when the camera's organization differs from the device's, and
otherwise inserts the row - regardless of whether `camera.device_id`
matches the reporting device. -/
theorem violation_report_org_scope (device_token : Str) (camera_id : Nat)
    (violation_type severity filename : Str) (now : Int) (newId : Nat)
    (db : EventsDb) (device : DeviceRow) (camera : CameraRow)
    (hdev : db.devices.find?
      (fun d => d.device_token_secret == device_token) = some device)
    (hcam : db.cameras.find? (fun c => c.id == camera_id) = some camera) :
    (camera.organization_id ≠ device.organization_id →
      log_violation device_token camera_id violation_type severity filename
        now newId db =
        .error ⟨403, str "Camera does not belong to your Organization"⟩) ∧
    (camera.organization_id = device.organization_id →
      ∃ db' v, log_violation device_token camera_id violation_type severity
          filename now newId db = .ok (db', v) ∧
        db'.violations = db.violations ++ [v]) := by
  constructor
  · intro h
    unfold log_violation
    rw [hdev, hcam]
    dsimp only
    rw [if_pos h]
  · intro h
    unfold log_violation
    rw [hdev, hcam]
    dsimp only
    rw [if_neg (by simp [h])]
    exact ⟨_, _, rfl, rfl⟩

/-- Witness for the amended C1 at a same-organization,
different-device-id camera. -/
theorem violation_report_org_scope_witness :
    ∃ db' v, log_violation (str "t2") 11 (str "no_vest") (str "Low")
        (str "i.jpg") 9 43 ⟨[⟨1, 4, str "t2", none⟩], [⟨11, 4, 2⟩], []⟩ =
        .ok (db', v) ∧
      db'.violations = ([] : List ViolationRow) ++ [v] :=
  (violation_report_org_scope (str "t2") 11 (str "no_vest") (str "Low")
    (str "i.jpg") 9 43 ⟨[⟨1, 4, str "t2", none⟩], [⟨11, 4, 2⟩], []⟩
    ⟨1, 4, str "t2", none⟩ ⟨11, 4, 2⟩ (by decide) (by decide)).2 rfl

theorem find?_updateUser_email (users : List UserRow) (t : Str)
    (u u' : UserRow) (hemail : u'.email = u.email)
    (hfind : users.find? (fun x => x.email == t) = some u) :
    (updateUser users u.id u').find? (fun x => x.email == t) = some u' := by
  induction users with
  | nil => simp [List.find?] at hfind
  | cons hd tl ih =>
    simp only [updateUser, List.map_cons]
    cases hm : (hd.email == t) with
    | true =>
      rw [@List.find?_cons_of_pos _ (fun x => x.email == t) hd tl hm]
        at hfind
      have hu : hd = u := Option.some.inj hfind
      subst hu
      rw [if_pos rfl]
      exact @List.find?_cons_of_pos _ (fun x => x.email == t) u' _
        (by simp only [hemail]; exact hm)
    | false =>
      rw [@List.find?_cons_of_neg _ (fun x => x.email == t) hd tl
        (by simp [hm])] at hfind
      have hpu : (u.email == t) = true := by
        have := List.find?_some hfind
        simpa using this
      by_cases hid : hd.id = u.id
      · rw [if_pos hid]
        exact @List.find?_cons_of_pos _ (fun x => x.email == t) u' _
          (by simp only [hemail]; exact hpu)
      · rw [if_neg hid]
        rw [@List.find?_cons_of_neg _ (fun x => x.email == t) hd _
          (by simp [hm])]
        have hres := ih hfind
        simpa [updateUser] using hres

/-- C5: the OTP is single-use: with a pending challenge whose stored hash
matches the submitted code and whose expiry has not passed, the first
verify call succeeds, clears both OTP fields on the stored user and mints
a user-tagged token; repeating the call against the committed state then
fails with the no-challenge-pending error, at any later clock reading. -/
theorem verify_2fa_single_use (email code : Str) (users : List UserRow)
    (u : UserRow) (t now : Int)
    (hfind : users.find? (fun x => x.email == pyLower email) = some u)
    (hhash : u.otp_hash = some (get_password_hash code))
    (hexp : u.otp_expires_at = some t)
    (hnow : now ≤ t) :
    verify_2fa_code email code users now =
      .ok (updateUser users u.id
          { u with otp_hash := none, otp_expires_at := none },
        create_access_token u.id (str "user")) ∧
    ({ u with otp_hash := none, otp_expires_at := none } :
      UserRow).otp_hash = none ∧
    ({ u with otp_hash := none, otp_expires_at := none } :
      UserRow).otp_expires_at = none ∧
    ∀ now2 : Int, verify_2fa_code email code
        (updateUser users u.id
          { u with otp_hash := none, otp_expires_at := none }) now2 =
      .error ⟨400, str "No 2FA request pending."⟩ := by
  refine ⟨?_, rfl, rfl, ?_⟩
  · unfold verify_2fa_code
    rw [hfind]
    dsimp only
    rw [hhash, hexp]
    dsimp only
    rw [if_neg (by omega), if_neg (by simp [verify_password])]
  · intro now2
    unfold verify_2fa_code
    rw [find?_updateUser_email users (pyLower email) u
      { u with otp_hash := none, otp_expires_at := none } rfl hfind]

/-- Witness for C5 at a concrete pending challenge. -/
theorem verify_2fa_single_use_witness :
    verify_2fa_code (str "a@b.c") (str "123456")
        [⟨1, 1, [], str "a@b.c", get_password_hash (str "pw"), [], true,
          true, some (get_password_hash (str "123456")), some 1000⟩] 0 =
      .ok (updateUser
          [⟨1, 1, [], str "a@b.c", get_password_hash (str "pw"), [], true,
            true, some (get_password_hash (str "123456")), some 1000⟩] 1
          ⟨1, 1, [], str "a@b.c", get_password_hash (str "pw"), [], true,
            true, none, none⟩,
        create_access_token 1 (str "user")) ∧
    verify_2fa_code (str "a@b.c") (str "123456")
        (updateUser
          [⟨1, 1, [], str "a@b.c", get_password_hash (str "pw"), [], true,
            true, some (get_password_hash (str "123456")), some 1000⟩] 1
          ⟨1, 1, [], str "a@b.c", get_password_hash (str "pw"), [], true,
            true, none, none⟩) 77 =
      .error ⟨400, str "No 2FA request pending."⟩ := by
  have h := verify_2fa_single_use (str "a@b.c") (str "123456")
    [⟨1, 1, [], str "a@b.c", get_password_hash (str "pw"), [], true, true,
      some (get_password_hash (str "123456")), some 1000⟩]
    ⟨1, 1, [], str "a@b.c", get_password_hash (str "pw"), [], true, true,
      some (get_password_hash (str "123456")), some 1000⟩
    1000 0 (by decide) rfl rfl (by omega)
  exact ⟨h.1, h.2.2.2 77⟩

/-- C4: the admin user-creation duplicate check matches the email against
every stored user with no organization filter (`auth.py` line 308), so a
GlobalAdmin of organization 2 cannot create `bob@site.com` even though the
only user with that email belongs to organization 1 - contradicting the
per-organization uniqueness the model itself declares
(`uix_user_email_org`, `app/models/user.py` lines 32-35). -/
theorem create_new_user_global_email_check :
    create_new_user
      ⟨str "bob", str "bob@site.com", str "pw", str "Supervisor"⟩
      ⟨2, 2, str "admin", str "admin@org2.com", get_password_hash (str "a"),
        str "GlobalAdmin", true, false, none, none⟩
      [⟨1, 1, str "bob1", str "bob@site.com", get_password_hash (str "b"),
        str "Supervisor", true, false, none, none⟩] 50 =
      .error ⟨400, str "A user with this email already exists."⟩ ∧
    (⟨1, 1, str "bob1", str "bob@site.com", get_password_hash (str "b"),
        str "Supervisor", true, false, none, none⟩ :
      UserRow).organization_id ≠
      (⟨2, 2, str "admin", str "admin@org2.com", get_password_hash (str "a"),
        str "GlobalAdmin", true, false, none, none⟩ :
      UserRow).organization_id :=
  ⟨rfl, by decide⟩

theorem hasUpper_pyLower (e : Str) : hasUpper (pyLower e) = false := by
  simp only [pyLower, hasUpper, List.any_map, List.any_eq_false,
    Function.comp]
  intro c hc
  unfold pyLowerChar
  split <;> simp <;> omega

/-- C10: login lowercases the submitted email before the lookup while
organization registration stores the admin email verbatim; consequently a
stored email containing an uppercase letter can never be resolved by the
login lookup (so login answers 401 whatever the password), while a stored
all-lowercase email is found under any casing of the input and, with the
right password on an active account, login succeeds. -/
theorem login_email_casing :
    (∀ (data : OrganizationRegister) (users : List UserRow)
        (devices : List DeviceRow) (a b c : Nat) (tok : Str)
        (users' : List UserRow) (devices' : List DeviceRow)
        (admin : UserRow),
      register_organization data users devices a b c tok =
          .ok (users', devices', admin) →
        admin.email = data.admin_email) ∧
    (∀ (users : List UserRow) (u : UserRow) (e : Str),
      hasUpper u.email = true →
        users.find? (fun x => x.email == pyLower e) ≠ some u) ∧
    (∀ (users : List UserRow) (e pw : Str) (now : Int) (otp : Str),
      (∀ x ∈ users, hasUpper x.email = true) →
        login_for_access_token e pw users now otp =
          .error ⟨401, str "Incorrect username or password"⟩) ∧
    (∀ (users : List UserRow) (u : UserRow) (e pw : Str) (now : Int)
        (otp : Str),
      users.find? (fun x => x.email == u.email) = some u →
        pyLower e = u.email →
        u.is_active = true →
        verify_password pw u.password_hash = true →
        (login_for_access_token e pw users now otp).isOk = true) := by
  refine ⟨?_, ?_, ?_, ?_⟩
  · intro data users devices a b c tok users' devices' admin h
    unfold register_organization at h
    by_cases hdup : (users.find? (fun u => u.email == data.admin_email)).isSome
    · rw [if_pos hdup] at h
      exact absurd h (by simp)
    · rw [if_neg hdup] at h
      dsimp only at h
      have heq := Except.ok.inj h
      have hadmin := congrArg (fun x => x.2.2) heq
      dsimp only at hadmin
      rw [← hadmin]
  · intro users u e hup hfind
    have hmatch := List.find?_some hfind
    have hemail : u.email = pyLower e := by simpa using hmatch
    rw [hemail, hasUpper_pyLower] at hup
    exact absurd hup (by simp)
  · intro users e pw now otp hall
    unfold login_for_access_token
    cases hfind : users.find? (fun x => x.email == pyLower e) with
    | none =>
      dsimp only
      rw [hfind]
    | some u =>
      exfalso
      have hmatch := List.find?_some hfind
      have hemail : u.email = pyLower e := by simpa using hmatch
      have hmem := List.mem_of_find?_eq_some hfind
      have hup := hall u hmem
      rw [hemail, hasUpper_pyLower] at hup
      exact absurd hup (by simp)
  · intro users u e pw now otp hfind hlow hact hpw
    unfold login_for_access_token
    dsimp only
    rw [hlow, hfind]
    dsimp only
    rw [if_neg (by simp [hact, hpw])]
    cases h2 : u.is_2fa_enabled
    · rfl
    · rfl

/-- Witness for C10: the uppercase-stored email is rejected, the
lowercase-stored one accepted under an uppercased input. -/
theorem login_email_casing_witness :
    login_for_access_token (str "bob@x.com") (str "pw")
        [⟨1, 1, [], str "Bob@X.com", get_password_hash (str "pw"), [],
          true, false, none, none⟩] 0 (str "1") =
      .error ⟨401, str "Incorrect username or password"⟩ ∧
    (login_for_access_token (str "BOB@X.COM") (str "pw")
        [⟨2, 1, [], str "bob@x.com", get_password_hash (str "pw"), [],
          true, false, none, none⟩] 0 (str "1")).isOk = true :=
  ⟨login_email_casing.2.2.1 _ _ _ _ _ (by decide),
   login_email_casing.2.2.2 _
     ⟨2, 1, [], str "bob@x.com", get_password_hash (str "pw"), [],
       true, false, none, none⟩ _ _ _ _
     (by decide) (by decide) rfl (by decide)⟩

/-- C7: for any window, `total` counts all matching violations and
`resolved` those among them with `is_resolved`; the resolution-rate KPI is
0 when `total = 0` and `round(resolved / total * 100, 1)` (half-to-even,
over exact rationals) whenever `total ≥ 1`. -/
theorem resolution_rate_formula (orgId year month : Nat)
    (timezone_offset : Int) (violations : List ViolationRow) :
    (dashboard_kpis orgId year month timezone_offset violations).total =
      violations.countP
        (inWindow orgId (monthWindow year month timezone_offset)) ∧
    (dashboard_kpis orgId year month timezone_offset violations).resolved =
      (violations.filter
        (inWindow orgId (monthWindow year month timezone_offset))).countP
        (fun v => v.is_resolved) ∧
    ((dashboard_kpis orgId year month timezone_offset violations).total = 0 →
      (dashboard_kpis orgId year month timezone_offset
        violations).resolution_rate = 0) ∧
    (1 ≤ (dashboard_kpis orgId year month timezone_offset
        violations).total →
      (dashboard_kpis orgId year month timezone_offset
          violations).resolution_rate =
        pyRound1 (((dashboard_kpis orgId year month timezone_offset
            violations).resolved : ℚ) /
          ((dashboard_kpis orgId year month timezone_offset
            violations).total : ℚ) * 100)) := by
  refine ⟨?_, ?_, ?_, ?_⟩
  · simp [dashboard_kpis, List.countP_eq_length_filter]
  · simp [dashboard_kpis, List.countP_eq_length_filter]
  · intro h
    simp only [dashboard_kpis] at h ⊢
    rw [if_neg (by omega)]
  · intro h
    simp only [dashboard_kpis] at h ⊢
    rw [if_pos (by omega)]

/-- Witness for C7: an empty window and a window holding two violations,
one of them resolved. -/
theorem resolution_rate_formula_witness :
    (dashboard_kpis 1 2026 3 0 []).resolution_rate = 0 ∧
    (dashboard_kpis 1 2026 3 0
        [⟨1, 1, 5, dtMicro 2026 3 15 12 0 0 0, str "no_helmet",
          str "High", false, true, str "s.jpg", 0⟩,
         ⟨2, 1, 5, dtMicro 2026 3 16 12 0 0 0, str "no_vest",
          str "Low", false, false, str "s.jpg", 0⟩]).resolution_rate =
      pyRound1 (((dashboard_kpis 1 2026 3 0
          [⟨1, 1, 5, dtMicro 2026 3 15 12 0 0 0, str "no_helmet",
            str "High", false, true, str "s.jpg", 0⟩,
           ⟨2, 1, 5, dtMicro 2026 3 16 12 0 0 0, str "no_vest",
            str "Low", false, false, str "s.jpg", 0⟩]).resolved : ℚ) /
        ((dashboard_kpis 1 2026 3 0
          [⟨1, 1, 5, dtMicro 2026 3 15 12 0 0 0, str "no_helmet",
            str "High", false, true, str "s.jpg", 0⟩,
           ⟨2, 1, 5, dtMicro 2026 3 16 12 0 0 0, str "no_vest",
            str "Low", false, false, str "s.jpg", 0⟩]).total : ℚ) * 100) :=
  ⟨(resolution_rate_formula 1 2026 3 0 []).2.2.1 (by decide),
   (resolution_rate_formula 1 2026 3 0
     [⟨1, 1, 5, dtMicro 2026 3 15 12 0 0 0, str "no_helmet",
       str "High", false, true, str "s.jpg", 0⟩,
      ⟨2, 1, 5, dtMicro 2026 3 16 12 0 0 0, str "no_vest",
       str "Low", false, false, str "s.jpg", 0⟩]).2.2.2 (by decide)⟩

theorem updateAt_length (daily : List ((Nat × Nat) × DayBucket))
    (k : Nat × Nat) (f : DayBucket → DayBucket) :
    (updateAt daily k f).length = daily.length := by
  induction daily with
  | nil => rfl
  | cons hd tl ih =>
    obtain ⟨k', b⟩ := hd
    unfold updateAt
    split <;> simp [ih]

theorem lookupBucket_updateAt_self (daily : List ((Nat × Nat) × DayBucket))
    (k : Nat × Nat) (f : DayBucket → DayBucket) :
    lookupBucket (updateAt daily k f) k = (lookupBucket daily k).map f := by
  induction daily with
  | nil => rfl
  | cons hd tl ih =>
    obtain ⟨k', b⟩ := hd
    by_cases hk : k' = k
    · subst hk
      simp [updateAt, lookupBucket, List.find?]
    · simp only [updateAt, if_neg hk]
      simp only [lookupBucket, List.find?] at ih ⊢
      have hbeq : (k' == k) = false := by simp [hk]
      simp only [hbeq]
      exact ih

theorem lookupBucket_updateAt_other (daily : List ((Nat × Nat) × DayBucket))
    (k k' : Nat × Nat) (f : DayBucket → DayBucket) (hne : k' ≠ k) :
    lookupBucket (updateAt daily k f) k' = lookupBucket daily k' := by
  induction daily with
  | nil => rfl
  | cons hd tl ih =>
    obtain ⟨k0, b⟩ := hd
    by_cases hk : k0 = k
    · subst hk
      have hk0 : ¬ k0 = k' := by
        intro h
        exact hne (h.symm)
      have hbeq : (k0 == k') = false := by simp [hk0]
      simp [updateAt, lookupBucket, List.find?, hbeq]
    · simp only [updateAt, if_neg hk]
      by_cases hk' : k0 = k'
      · subst hk'
        simp [lookupBucket, List.find?]
      · have hbeq : (k0 == k') = false := by simp [hk']
        simp only [lookupBucket, List.find?] at ih ⊢
        simp only [hbeq]
        exact ih

theorem getCount_bump_self (counters : List (Str × Nat)) (k : Str)
    (c : Nat) : getCount (bump counters k c) k = getCount counters k + c := by
  induction counters with
  | nil => simp [bump, getCount]
  | cons hd tl ih =>
    obtain ⟨k', v⟩ := hd
    by_cases h : k' = k
    · subst h
      simp [bump, getCount]
    · simp [bump, getCount, h, ih]

theorem foldl_trend_length (rows : List TrendRow)
    (init : List ((Nat × Nat) × DayBucket)) :
    (rows.foldl foldTrendRow init).length = init.length := by
  induction rows generalizing init with
  | nil => rfl
  | cons r rows ih =>
    simp only [List.foldl_cons]
    rw [ih]
    exact updateAt_length init _ _

/-- C6: the monthly trend always holds exactly `monthrange(year, month)`
day-buckets - initialized with zero totals, keyed by the day labels of the
queried month, and produced unchanged when no violation matches - and
folding a grouped row into a present bucket adds its count to
`total_false` plus a `false_<severity-lowercase>` counter when the row is
a false positive, and otherwise to `total_valid` plus a counter keyed by
the raw violation type code, leaving every other bucket untouched. -/
theorem trend_bucket_shape (orgId year month : Nat)
    (timezone_offset : Int) :
    (∀ violations, (trend_data orgId year month timezone_offset
      violations).length = monthLen year month) ∧
    trend_data orgId year month timezone_offset [] =
      initDaily year month ∧
    (initDaily year month).map Prod.fst =
      (List.range (monthLen year month)).map (fun i => (i + 1, month)) ∧
    (∀ e ∈ initDaily year month,
      e.2.total_valid = 0 ∧ e.2.total_false = 0) ∧
    (∀ (daily : List ((Nat × Nat) × DayBucket)) (row : TrendRow)
        (b : DayBucket),
      lookupBucket daily (labelOfTrunc row.day) = some b →
      (row.is_false_positive = true →
        lookupBucket (foldTrendRow daily row) (labelOfTrunc row.day) =
          some { b with
            total_false := b.total_false + row.count
            counters := bump b.counters
              (str "false_" ++ pyLower row.severity) row.count } ∧
        getCount (bump b.counters (str "false_" ++ pyLower row.severity)
            row.count) (str "false_" ++ pyLower row.severity) =
          getCount b.counters (str "false_" ++ pyLower row.severity) +
            row.count) ∧
      (row.is_false_positive = false →
        lookupBucket (foldTrendRow daily row) (labelOfTrunc row.day) =
          some { b with
            total_valid := b.total_valid + row.count
            counters := bump b.counters row.violation_type row.count } ∧
        getCount (bump b.counters row.violation_type row.count)
            row.violation_type =
          getCount b.counters row.violation_type + row.count) ∧
      (∀ k, k ≠ labelOfTrunc row.day →
        lookupBucket (foldTrendRow daily row) k = lookupBucket daily k)) := by
  refine ⟨?_, rfl, ?_, ?_, ?_⟩
  · intro violations
    unfold trend_data
    rw [foldl_trend_length]
    simp [initDaily]
  · simp [initDaily, List.map_map]
  · intro e he
    simp only [initDaily, List.mem_map, List.mem_range] at he
    obtain ⟨i, hi, rfl⟩ := he
    exact ⟨rfl, rfl⟩
  · intro daily row b hb
    refine ⟨?_, ?_, ?_⟩
    · intro hf
      constructor
      · unfold foldTrendRow
        rw [lookupBucket_updateAt_self, hb]
        simp [applyTrendRow, hf]
      · exact getCount_bump_self _ _ _
    · intro hf
      constructor
      · unfold foldTrendRow
        rw [lookupBucket_updateAt_self, hb]
        simp [applyTrendRow, hf]
      · exact getCount_bump_self _ _ _
    · intro k hk
      unfold foldTrendRow
      exact lookupBucket_updateAt_other _ _ _ _ hk

set_option maxRecDepth 4000 in
/-- Witness for C6: February 2026 has 28 buckets, and a false-positive
High row of count 3 lands in its day bucket as `total_false = 3` with
counter `false_high = 3`. -/
theorem trend_bucket_shape_witness :
    (trend_data 1 2026 2 0 []).length = monthLen 2026 2 ∧
    lookupBucket (foldTrendRow (initDaily 2026 2)
        ⟨truncDay (dtMicro 2026 2 10 5 0 0 0), str "no_helmet",
          str "High", true, 3⟩)
        (labelOfTrunc (truncDay (dtMicro 2026 2 10 5 0 0 0))) =
      some ⟨0, 3, [(str "false_high", 3)]⟩ := by
  constructor
  · exact (trend_bucket_shape 1 2026 2 0).1 []
  · have h := ((trend_bucket_shape 1 2026 2 0).2.2.2.2 (initDaily 2026 2)
      ⟨truncDay (dtMicro 2026 2 10 5 0 0 0), str "no_helmet",
        str "High", true, 3⟩ ⟨0, 0, []⟩ (by decide)).1 rfl
    rw [h.1]
    decide

theorem dateToDay_shift (y m d : Nat) :
    dateToDay y m d = dateToDay y m 1 + (d - 1) := by
  unfold dateToDay
  omega

/-- C2 (amended): for every violation row whose UTC timestamp lies inside
the computed query window (`utc = local - offset` applied to both bounds,
the end bound being the month's last day at 23:59:59), the same offset is
added back before day-truncation, and the row's fold step addresses
exactly the bucket labelled with the local calendar day of `T + O` -
never any other day's bucket. Rows in the final fractional second of the
local month fall outside the window (see the counterexample) and are the
only exclusions. -/
theorem trend_same_offset_bucketing (year month : Nat)
    (timezone_offset : Int) (v : ViolationRow) (orgId : Nat)
    (hy : 1 ≤ year) (hm1 : 1 ≤ month) (hm2 : month ≤ 12)
    (horg : v.organization_id = orgId)
    (hlo : (monthWindow year month timezone_offset).1 ≤ v.timestamp_utc)
    (hhi : v.timestamp_utc ≤ (monthWindow year month timezone_offset).2) :
    ∃ d, 1 ≤ d ∧ d ≤ monthLen year month ∧
      (dateToDay year month d : Int) * usPerDay ≤
        v.timestamp_utc + timezone_offset * usPerMin ∧
      v.timestamp_utc + timezone_offset * usPerMin <
        ((dateToDay year month d : Int) + 1) * usPerDay ∧
      inWindow orgId (monthWindow year month timezone_offset) v = true ∧
      labelOfTrunc (trendRowOf timezone_offset v).day = (d, month) ∧
      (∀ daily, foldTrendRow daily (trendRowOf timezone_offset v) =
        updateAt daily (d, month)
          (applyTrendRow (trendRowOf timezone_offset v))) := by
  have hlast := monthLen_pos year month
  have hN1 : dtMicro year month 1 0 0 0 0 =
      (dateToDay year month 1 : Int) * usPerDay := by
    unfold dtMicro
    norm_num
  have hNL : dtMicro year month (monthLen year month) 23 59 59 0 =
      (dateToDay year month (monthLen year month) : Int) * usPerDay +
        86399000000 := by
    unfold dtMicro usPerDay
    push_cast
    ring
  have hshift := dateToDay_shift year month (monthLen year month)
  have hlo' : (dateToDay year month 1 : Int) * usPerDay ≤
      v.timestamp_utc + timezone_offset * usPerMin := by
    unfold monthWindow at hlo
    dsimp only at hlo
    rw [hN1] at hlo
    omega
  have hhi' : v.timestamp_utc + timezone_offset * usPerMin ≤
      (dateToDay year month (monthLen year month) : Int) * usPerDay +
        86399000000 := by
    unfold monthWindow at hhi
    dsimp only at hhi
    rw [hNL] at hhi
    omega
  set L : Int := v.timestamp_utc + timezone_offset * usPerMin with hL
  have hq : L = usPerDay * (L / usPerDay) + L % usPerDay := by
    rw [Int.ediv_add_emod]
  have hrange : 0 ≤ L % usPerDay ∧ L % usPerDay < usPerDay := by
    constructor
    · exact Int.emod_nonneg L (by norm_num [usPerDay])
    · exact Int.emod_lt_of_pos L (by norm_num [usPerDay])
  have hqlo : (dateToDay year month 1 : Int) ≤ L / usPerDay := by
    unfold usPerDay at *
    omega
  have hqhi : L / usPerDay ≤ (dateToDay year month (monthLen year month) :
      Int) := by
    unfold usPerDay at *
    omega
  have hshiftZ : (dateToDay year month (monthLen year month) : Int) =
      (dateToDay year month 1 : Int) + (monthLen year month : Int) - 1 := by
    rw [hshift]
    push_cast
    omega
  have hd : (dateToDay year month
      ((L / usPerDay - (dateToDay year month 1 : Int)).toNat + 1) : Int) =
      L / usPerDay := by
    rw [dateToDay_shift year month _]
    push_cast
    omega
  have hdle : (L / usPerDay - (dateToDay year month 1 : Int)).toNat + 1 ≤
      monthLen year month := by
    omega
  have hfd : Int.fdiv (truncDay L) usPerDay = L / usPerDay := by
    unfold truncDay
    rw [Int.fdiv_eq_ediv _ (by norm_num [usPerDay]),
      Int.fdiv_eq_ediv _ (by norm_num [usPerDay])]
    exact Int.mul_ediv_cancel _ (by norm_num [usPerDay])
  have hlabel : labelOfTrunc (truncDay L) =
      ((L / usPerDay - (dateToDay year month 1 : Int)).toNat + 1, month) := by
    have hdn : (L / usPerDay).toNat = dateToDay year month
        ((L / usPerDay - (dateToDay year month 1 : Int)).toNat + 1) := by
      omega
    unfold labelOfTrunc
    rw [hfd, hdn,
      dayToDate_dateToDay year month _ hy hm1 hm2 (by omega) hdle]
  refine ⟨(L / usPerDay - (dateToDay year month 1 : Int)).toNat + 1,
    by omega, hdle, ?_, ?_, ?_, ?_, ?_⟩
  · rw [hd]
    unfold usPerDay at *
    omega
  · rw [hd]
    unfold usPerDay at *
    omega
  · simp [inWindow, horg, hlo, hhi]
  · exact hlabel
  · intro daily
    unfold foldTrendRow
    rw [show (trendRowOf timezone_offset v).day = truncDay L from rfl,
      hlabel]

set_option maxRecDepth 8000 in
/-- Witness for the amended C2 at offset +300 minutes: a row at 02:00 UTC
on 2026-03-01 buckets into local day 1 of March. -/
theorem trend_same_offset_bucketing_witness :
    ∃ d, 1 ≤ d ∧ d ≤ monthLen 2026 3 ∧
      (dateToDay 2026 3 d : Int) * usPerDay ≤
        dtMicro 2026 3 1 2 0 0 0 + 300 * usPerMin ∧
      dtMicro 2026 3 1 2 0 0 0 + 300 * usPerMin <
        ((dateToDay 2026 3 d : Int) + 1) * usPerDay ∧
      inWindow 1 (monthWindow 2026 3 300)
        ⟨1, 1, 5, dtMicro 2026 3 1 2 0 0 0, str "no_helmet", str "High",
          false, false, str "s.jpg", 0⟩ = true ∧
      labelOfTrunc (trendRowOf 300
        ⟨1, 1, 5, dtMicro 2026 3 1 2 0 0 0, str "no_helmet", str "High",
          false, false, str "s.jpg", 0⟩).day = (d, 3) ∧
      (∀ daily, foldTrendRow daily (trendRowOf 300
          ⟨1, 1, 5, dtMicro 2026 3 1 2 0 0 0, str "no_helmet", str "High",
            false, false, str "s.jpg", 0⟩) =
        updateAt daily (d, 3) (applyTrendRow (trendRowOf 300
          ⟨1, 1, 5, dtMicro 2026 3 1 2 0 0 0, str "no_helmet", str "High",
            false, false, str "s.jpg", 0⟩))) :=
  trend_same_offset_bucketing 2026 3 300
    ⟨1, 1, 5, dtMicro 2026 3 1 2 0 0 0, str "no_helmet", str "High",
      false, false, str "s.jpg", 0⟩ 1
    (by omega) (by omega) (by omega) rfl (by decide) (by decide)

set_option maxRecDepth 8000 in
/-- C2 counterexample: a violation at 23:59:59.500000 local time on
2026-03-31 (offset 0) has local calendar day 31 March of the queried
month, yet the aggregation's window filter (inclusive bound 23:59:59.000000)
drops it, so every bucket of the month - including day 31 - stays at
zero: the row is not counted in the bucket of `day(T + O)`. -/
theorem trend_last_second_dropped :
    (dateToDay 2026 3 31 : Int) * usPerDay ≤
      dtMicro 2026 3 31 23 59 59 500000 + 0 * usPerMin ∧
    dtMicro 2026 3 31 23 59 59 500000 + 0 * usPerMin <
      ((dateToDay 2026 3 31 : Int) + 1) * usPerDay ∧
    trend_data 1 2026 3 0
      [⟨1, 1, 5, dtMicro 2026 3 31 23 59 59 500000, str "no_helmet",
        str "High", false, false, str "s.jpg", 0⟩] = initDaily 2026 3 ∧
    lookupBucket (initDaily 2026 3) (31, 3) = some ⟨0, 0, []⟩ := by
  refine ⟨by decide, by decide, ?_, by decide⟩
  rfl
